import Mathlib

/-!
Verification of the covalent `refactor` service endpoints.

The repository consists of four FastAPI endpoint modules:
`data/app/api/api_v0/endpoints/workflow.py` (result store endpoints),
`queuer/app/api/api_v0/endpoints/submit.py` and
`queuer/app/api/api_v1/endpoints/submit.py` (dispatch submission), and a
fully commented-out `runner/app/api/api_v0/endpoints/user.py`.

Each handler is embedded below as a pure Lean function (stateless handlers)
or, for the async v0 submit handler, as the ordered trace of its effects.
Schemas imported by the handlers (`app.schemas.workflow`) are not part of
the provided sources and are modelled from the specification where a claim
needs them.
-/

namespace Covalent

/-- Node execution status enum from the specification's data model:
PENDING, RUNNING, COMPLETED, FAILED. -/
inductive Status where
  | PENDING
  | RUNNING
  | COMPLETED
  | FAILED
deriving DecidableEq, Repr

/-- Modelled from the spec: the binding kind carried by an Edge
(positional or keyword); the `Edge` schema is not under src/. -/
inductive BindKind where
  | positional
  | keyword
deriving DecidableEq, Repr

/-- Modelled from the spec: the `Node` schema (`app.schemas.workflow.Node`)
is not under src/; the spec lists its attributes (integer id unique within a
dispatch, name, status enum, nullable output and error). Only the fields the
claims mention are modelled. -/
structure Node where
  id : Nat
  name : String
  status : Status
  output : Option String := none
  nodeError : Option String := none
deriving DecidableEq, Repr

/-- Modelled from the spec: the `Edge` schema is not under src/; it is a
directed link between two Node ids carrying a parameter name and a binding
kind. -/
structure Edge where
  source : Nat
  target : Nat
  param : String
  kind : BindKind
deriving DecidableEq, Repr

/-- Modelled from the spec: a workflow graph payload, a collection of Nodes
and a collection of Edges. -/
structure Graph where
  nodes : List Node
  edges : List Edge
deriving DecidableEq, Repr

/-- Modelled from the spec invariant: edge endpoints must reference existing
node ids within the same graph. -/
def Graph.edgesWellFormed (g : Graph) : Bool :=
  g.edges.all fun e =>
    (g.nodes.map Node.id).contains e.source && (g.nodes.map Node.id).contains e.target

/-- Whether node `n` has an incoming edge in `edges`. -/
def hasIncoming (edges : List Edge) (n : Nat) : Bool :=
  edges.any fun e => e.target == n

/-- Fuelled Kahn elimination: repeatedly delete nodes with no incoming edge
(and the edges leaving them); the node set empties exactly when the graph is
acyclic. -/
def kahn : Nat → List Nat → List Edge → Bool
  | 0, nodes, _ => nodes.isEmpty
  | fuel + 1, nodes, edges =>
    if nodes.isEmpty then
      true
    else
      let blocked := nodes.filter fun n => hasIncoming edges n
      if blocked.length == nodes.length then
        false
      else
        kahn fuel blocked (edges.filter fun e => blocked.contains e.source)

/-- Modelled from the spec: the submitted graph must be a DAG (no validation
code exists under src/); decided by Kahn elimination. -/
def Graph.isDAG (g : Graph) : Bool :=
  kahn (g.nodes.length + 1) (g.nodes.map Node.id) g.edges

/-- Modelled from the spec: the wire serialization of a workflow payload
("body: serialized workflow graph") is not under src/, and the embedded
endpoints never inspect the body, so a simple byte-list encoding of the node
ids and edge endpoints stands for it. -/
def Graph.encode (g : Graph) : List Nat :=
  g.nodes.map Node.id ++ g.edges.foldr (fun e acc => e.source :: e.target :: acc) []

/-- Modelled from the spec: the monotonic node-status order
PENDING to RUNNING to (COMPLETED or FAILED), with no reverse transitions;
no transition-checking code exists under src/. -/
def allowedTransition : Status → Status → Bool
  | .PENDING, _ => true
  | .RUNNING, .PENDING => false
  | .RUNNING, _ => true
  | .COMPLETED, .COMPLETED => true
  | .COMPLETED, _ => false
  | .FAILED, .FAILED => true
  | .FAILED, _ => false

/-- Result of a FastAPI handler call: either a raised HTTPException
(status code and detail string) or a returned response (status code and
body). -/
inductive Outcome (α : Type) where
  | httpException (statusCode : Nat) (detail : String)
  | ok (statusCode : Nat) (body : α)
deriving DecidableEq, Repr

namespace DataV0

/-- `get_result` from `data/app/api/api_v0/endpoints/workflow.py`: binds the
constant bytes b'\x00\xF0', raises HTTPException 404 when `dispatch_id` is
falsy (the empty string), and otherwise streams those two bytes with
status 200. The handler consults no store (the source marks the db lookup as
a pending change). -/
def get_result (dispatch_id : String) : Outcome (List Nat) :=
  let result : List Nat := [0x00, 0xF0]
  if dispatch_id = "" then
    .httpException 404 "Result not found"
  else
    .ok 200 result

/-- `insert_result` from the same file: ignores the uploaded pickle file and
returns the fixed dispatch id with status 200. -/
def insert_result (result_pkl_file : List Nat) : Outcome (List (String × String)) :=
  .ok 200 [("dispatch_id", "e4efd26c-240d-4ab1-9826-26ada91e429f")]

/-- `update_result` from the same file: raises HTTPException 404 when
`dispatch_id` is the empty string and otherwise returns the fixed success
message with status 200; the `task` body is never read and no state is
kept (the source marks the db lookup as a pending change). -/
def update_result (dispatch_id : String) (task : Node) : Outcome (List (String × String)) :=
  if dispatch_id = "" then
    .httpException 404 "Result not found"
  else
    .ok 200 [("response", "Task updated successfully")]

end DataV0

/-- One observable effect of the async v0 submit handler, in program
order: a completed queue publish, or the HTTP response returned to the
caller. -/
inductive Event where
  | publish (topic : String) (message : List (String × String))
  | respond (statusCode : Nat) (body : List (String × String))
deriving DecidableEq, Repr

/-- Whether an event is the HTTP response. -/
def Event.isRespond : Event → Bool
  | .respond _ _ => true
  | _ => false

/-- Whether an event is a queue publish. -/
def Event.isPublish : Event → Bool
  | .publish _ _ => true
  | _ => false

namespace QueuerV0

/-- `submit_workflow` from `queuer/app/api/api_v0/endpoints/submit.py`,
embedded as its ordered trace of effects: the handler awaits
`queue.publish("foo", {"message": "hi"})` to completion and only then
returns status 202 with the fixed dispatch id; the `result` payload is
never read. -/
def submit_workflow (result : List Nat) : List Event :=
  [ .publish "foo" [("message", "hi")],
    .respond 202 [("dispatch_id", "48f1d3b7-27bb-4c5d-97fe-c0c61c197fd5")] ]

end QueuerV0

namespace QueuerV1

/-- `submit_workflow` from `queuer/app/api/api_v1/endpoints/submit.py`:
ignores the `data` bytes and returns the fixed dispatch id with
status 200. -/
def submit_workflow (data : List Nat) : Outcome (List (String × String)) :=
  .ok 200 [("dispatch_id", "48f1d3b7-27bb-4c5d-97fe-c0c61c197fd5")]

end QueuerV1

/-- The dispatch id hard-coded in both queuer submit handlers. -/
def fixedDispatchId : String := "48f1d3b7-27bb-4c5d-97fe-c0c61c197fd5"

/-- The dispatch id the v0 submit handler responds with for payload `p`:
the "dispatch_id" field of the first response event of its trace. -/
def submittedDispatchId (p : List Nat) : Option String :=
  match (QueuerV0.submit_workflow p).find? Event.isRespond with
  | some (.respond _ body) => body.lookup "dispatch_id"
  | _ => none

/-- Some publish event occurs strictly before the first response event of
the trace. -/
def publishPrecedesResponse (trace : List Event) : Bool :=
  (trace.takeWhile fun e => !e.isRespond).any Event.isPublish

/-- All (topic, message) pairs published in a trace, in order. -/
def publishedMessages (trace : List Event) : List (String × List (String × String)) :=
  trace.filterMap fun e =>
    match e with
    | .publish topic msg => some (topic, msg)
    | _ => none

/-- The spec's example payload: one node `load_data`, no edges; a valid
DAG. -/
def exampleDag : Graph :=
  { nodes := [{ id := 0, name := "load_data", status := .PENDING }], edges := [] }

/-- A two-node cyclic payload: edges 0 to 1 and 1 to 0. -/
def cyclicGraph : Graph :=
  { nodes := [ { id := 0, name := "a", status := .PENDING },
               { id := 1, name := "b", status := .PENDING } ],
    edges := [ { source := 0, target := 1, param := "x", kind := .positional },
               { source := 1, target := 0, param := "y", kind := .positional } ] }

/-- Claim C1 (code_bug evidence). For the spec's single-node DAG payload,
`submit_workflow` responds with the fixed dispatch id, and `get_result` on
that id does succeed — but its body is the constant two bytes
`[0x00, 0xF0]`, identical to the body returned for a completely unrelated
dispatch id, so the response carries no record of the submitted nodes and
no PENDING statuses. -/
theorem c1_get_after_submit_is_constant_bytes :
    Graph.isDAG exampleDag = true ∧
    Graph.edgesWellFormed exampleDag = true ∧
    submittedDispatchId exampleDag.encode = some fixedDispatchId ∧
    DataV0.get_result fixedDispatchId = .ok 200 [0x00, 0xF0] ∧
    DataV0.get_result fixedDispatchId =
      DataV0.get_result "e4efd26c-240d-4ab1-9826-26ada91e429f" := by
  refine ⟨rfl, rfl, rfl, rfl, rfl⟩

/-- Claim C2 (code_bug evidence). Updating a node to COMPLETED and then
updating the same node to RUNNING — a transition the spec's monotonic order
forbids — both return 200 "Task updated successfully"; the handler keeps no
state and never returns 409 InvalidTransition. -/
theorem c2_backwards_update_still_succeeds :
    allowedTransition .COMPLETED .RUNNING = false ∧
    DataV0.update_result fixedDispatchId
        { id := 0, name := "load_data", status := .COMPLETED } =
      .ok 200 [("response", "Task updated successfully")] ∧
    DataV0.update_result fixedDispatchId
        { id := 0, name := "load_data", status := .RUNNING } =
      .ok 200 [("response", "Task updated successfully")] := by
  refine ⟨rfl, rfl, rfl⟩

/-- Claim C3 (code_bug evidence). The update handler's response is the same
constant success message for every task body — in particular it is
independent of the node's status, so no Result.status is recomputed from
node statuses (none is stored at all). -/
theorem c3_update_response_ignores_node_statuses :
    ∀ t : Node, DataV0.update_result fixedDispatchId t =
      .ok 200 [("response", "Task updated successfully")] := by
  intro t
  rfl

/-- Claim C4 (code_bug evidence). The two-node cyclic payload is not a DAG,
yet submitting it yields the normal trace — a completed publish followed by
a 202 response carrying the fixed dispatch id — and a subsequent get on
that id returns 200, not 404. -/
theorem c4_cyclic_payload_accepted_and_gettable :
    Graph.isDAG cyclicGraph = false ∧
    QueuerV0.submit_workflow cyclicGraph.encode =
      [ .publish "foo" [("message", "hi")],
        .respond 202 [("dispatch_id", fixedDispatchId)] ] ∧
    DataV0.get_result fixedDispatchId = .ok 200 [0x00, 0xF0] := by
  refine ⟨rfl, rfl, rfl⟩

/-- Claim C5 (code_bug evidence). A dispatch id that was never submitted
(no store exists to hold it) still gets a 200 response with the constant
bytes; the 404 branch fires only for the empty string. -/
theorem c5_unknown_id_returns_200 :
    DataV0.get_result "no-such-dispatch" = .ok 200 [0x00, 0xF0] ∧
    DataV0.get_result "" = .httpException 404 "Result not found" := by
  refine ⟨rfl, rfl⟩

/-- Claim C6 (code_bug evidence). The dispatch id in the submit response is
the same hard-coded constant for every pair of submissions, so two distinct
successful calls never receive distinct ids. -/
theorem c6_dispatch_id_constant_across_submissions :
    ∀ p q : List Nat,
      submittedDispatchId p = submittedDispatchId q ∧
      submittedDispatchId p = some fixedDispatchId := by
  intro p q
  exact ⟨rfl, rfl⟩

/-- Claim C7 counterexample. The v1 `POST /dispatch` handler answers a
successful submission with status 200 and a dispatch_id body — and 200 is
not 202, refuting the claim that every successful submission is answered
with 202 Accepted. -/
theorem c7_v1_submit_status_is_200_not_202 :
    QueuerV1.submit_workflow [0] = .ok 200 [("dispatch_id", fixedDispatchId)] ∧
    (200 : Nat) ≠ 202 := by
  refine ⟨rfl, by decide⟩

/-- Claim C7 as amended. The v0 `POST /dispatch` endpoint responds with
status 202 carrying the dispatch_id for every payload, while the v1
endpoint responds with status 200 carrying the same dispatch_id. -/
theorem c7_v0_responds_202_v1_responds_200 :
    (∀ p : List Nat, QueuerV0.submit_workflow p =
      [ .publish "foo" [("message", "hi")],
        .respond 202 [("dispatch_id", fixedDispatchId)] ]) ∧
    (∀ d : List Nat, QueuerV1.submit_workflow d =
      .ok 200 [("dispatch_id", fixedDispatchId)]) := by
  exact ⟨fun p => rfl, fun d => rfl⟩

/-- Claim C8. In the v0 submit handler's trace, for every payload, a
completed publish event precedes the response event: the handler awaits
`queue.publish` before returning the accepted response. -/
theorem c8_publish_awaited_before_response :
    ∀ p : List Nat, publishPrecedesResponse (QueuerV0.submit_workflow p) = true := by
  intro p
  rfl

/-- Claim C9 (code_bug evidence). The only message the v0 submit handler
ever publishes is the fixed `("foo", {"message": "hi"})`, independent of the
payload; none of its field values is the dispatch id, and it carries no
serialized workflow payload. -/
theorem c9_published_message_lacks_payload_and_id :
    (∀ p : List Nat, publishedMessages (QueuerV0.submit_workflow p) =
      [("foo", [("message", "hi")])]) ∧
    (([("message", "hi")] : List (String × String)).all
      fun kv => kv.2 != fixedDispatchId) = true := by
  refine ⟨fun p => rfl, by decide⟩

/-- Claim C10. For every pair of non-empty dispatch ids, `get_result`
returns status 200 with the fixed two-byte payload `[0x00, 0xF0]`, and the
two responses are identical — independent of which id is requested and of
any prior submissions or updates (the handler reads no state). -/
theorem c10_get_result_constant_for_nonempty (d₁ d₂ : String)
    (h₁ : d₁ ≠ "") (h₂ : d₂ ≠ "") :
    DataV0.get_result d₁ = .ok 200 [0x00, 0xF0] ∧
    DataV0.get_result d₁ = DataV0.get_result d₂ := by
  unfold DataV0.get_result
  rw [if_neg h₁, if_neg h₂]
  exact ⟨rfl, rfl⟩

/-- Witness for claim C10 at the concrete dispatch ids
"48f1d3b7-27bb-4c5d-97fe-c0c61c197fd5" and "a". -/
theorem c10_get_result_constant_witness :
    DataV0.get_result "48f1d3b7-27bb-4c5d-97fe-c0c61c197fd5" =
      .ok 200 [0x00, 0xF0] ∧
    DataV0.get_result "48f1d3b7-27bb-4c5d-97fe-c0c61c197fd5" =
      DataV0.get_result "a" :=
  c10_get_result_constant_for_nonempty "48f1d3b7-27bb-4c5d-97fe-c0c61c197fd5" "a"
    (by decide) (by decide)

end Covalent
